import Mathlib

/-
Shallow embedding of the poker engine of the repository under verification.

Sources embedded:
  app/core/game/poker_engine.py   (hand evaluation, blinds, phase advance, winner grouping, deck dealing)
  app/core/game/game_service.py   (action validation/application, round closure, pot distribution)
  app/store/game_store.py         (the store-layer action application)
  app/models/game_models.py       (data model)

Python ints are embedded as Int (chips, pot, bets) or Nat (indices, card values);
in-place mutation is embedded as explicit state passing; `random.shuffle` is
abstracted as an explicit permutation parameter `shuffle`.
-/

namespace Pocketaces

/-- Card from app/models/game_models.py: suit, rank label, numeric value (2..14, A=14). -/
structure Card where
  suit : String
  rank : String
  value : Nat
deriving DecidableEq

/-- Hand categories. The source imports `HandRankType` (the enum itself is not under
src/, only its use sites in poker_engine.py are); the constructors below are exactly
the members referenced there, and the numeric value the code pairs with each member
is passed explicitly at each construction site, as in the source. -/
inductive HandRankType where
  | INVALID
  | HIGH_CARD
  | ONE_PAIR
  | TWO_PAIR
  | THREE_OF_A_KIND
  | STRAIGHT
  | FLUSH
  | FULL_HOUSE
  | FOUR_OF_A_KIND
  | STRAIGHT_FLUSH
  | ROYAL_FLUSH
deriving DecidableEq

/-- HandRank from app/models/game_models.py. -/
structure HandRank where
  rank : HandRankType
  value : Nat
  cards : List Card
  kickers : List Card
deriving DecidableEq

/-- Stable descending insertion by card value (embeds Python's stable
`cards.sort(key=lambda x: x.value, reverse=True)`). -/
def insert_desc (c : Card) : List Card → List Card
  | [] => [c]
  | x :: xs => if c.value ≤ x.value then x :: insert_desc c xs else c :: x :: xs

/-- Sort cards by value, descending, stable. -/
def sort_desc : List Card → List Card
  | [] => []
  | c :: cs => insert_desc c (sort_desc cs)

/-- Stable ascending insertion of a value (embeds Python's `values.sort()`). -/
def insert_asc (v : Nat) : List Nat → List Nat
  | [] => [v]
  | x :: xs => if x ≤ v then x :: insert_asc v xs else v :: x :: xs

/-- Sort a list of values ascending. -/
def sort_asc : List Nat → List Nat
  | [] => []
  | v :: vs => insert_asc v (sort_asc vs)

/-- Check that an ascending value list increases by exactly 1 at every step
(the `for ... else` loop of `PokerEngine._is_straight`). -/
def consecutive : List Nat → Bool
  | [] => true
  | [_] => true
  | a :: b :: rest => (b == a + 1) && consecutive (b :: rest)

/-- PokerEngine._is_flush: every card has the suit of the first card. -/
def is_flush (cards : List Card) : Bool :=
  match cards with
  | [] => true
  | c :: _ => cards.all (fun x => x.suit == c.suit)

/-- PokerEngine._is_straight: sorted values either step by 1 throughout, or equal
the Ace-low wheel `[2, 3, 4, 5, 14]`. -/
def is_straight (cards : List Card) : Bool :=
  let values := sort_asc (cards.map Card.value)
  consecutive values || values == [2, 3, 4, 5, 14]

/-- PokerEngine._is_straight_flush. -/
def is_straight_flush (cards : List Card) : Bool :=
  is_flush cards && is_straight cards

/-- PokerEngine._is_royal_flush: straight flush whose first card (the list is
already sorted descending by the caller) is an Ace. -/
def is_royal_flush (cards : List Card) : Bool :=
  is_straight_flush cards &&
    (match cards with
     | [] => false
     | c :: _ => c.value == 14)

/-- PokerEngine._is_four_of_a_kind: some value occurs exactly 4 times. -/
def is_four_of_a_kind (cards : List Card) : Bool :=
  let values := cards.map Card.value
  values.any (fun v => values.count v == 4)

/-- PokerEngine._is_full_house: exactly two distinct values, with counts 3+2. -/
def is_full_house (cards : List Card) : Bool :=
  let values := cards.map Card.value
  match values.eraseDups with
  | [a, b] =>
      (values.count a == 3 && values.count b == 2) ||
      (values.count a == 2 && values.count b == 3)
  | _ => false

/-- PokerEngine._is_three_of_a_kind: some value occurs exactly 3 times. -/
def is_three_of_a_kind (cards : List Card) : Bool :=
  let values := cards.map Card.value
  values.any (fun v => values.count v == 3)

/-- PokerEngine._is_two_pair: exactly two distinct values occur exactly twice. -/
def is_two_pair (cards : List Card) : Bool :=
  let values := cards.map Card.value
  (values.eraseDups.filter (fun v => values.count v == 2)).length == 2

/-- PokerEngine._is_one_pair: some value occurs exactly 2 times. -/
def is_one_pair (cards : List Card) : Bool :=
  let values := cards.map Card.value
  values.any (fun v => values.count v == 2)

/-- PokerEngine._evaluate_five_cards: classify a 5-card hand by the ordered
predicates, pairing each category with its scalar value, empty kickers. -/
def evaluate_five_cards (cards0 : List Card) : HandRank :=
  if cards0.length ≠ 5 then
    { rank := HandRankType.INVALID, value := 0, cards := cards0, kickers := [] }
  else
    let cards := sort_desc cards0
    if is_royal_flush cards then
      { rank := HandRankType.ROYAL_FLUSH, value := 10, cards := cards, kickers := [] }
    else if is_straight_flush cards then
      { rank := HandRankType.STRAIGHT_FLUSH, value := 9, cards := cards, kickers := [] }
    else if is_four_of_a_kind cards then
      { rank := HandRankType.FOUR_OF_A_KIND, value := 8, cards := cards, kickers := [] }
    else if is_full_house cards then
      { rank := HandRankType.FULL_HOUSE, value := 7, cards := cards, kickers := [] }
    else if is_flush cards then
      { rank := HandRankType.FLUSH, value := 6, cards := cards, kickers := [] }
    else if is_straight cards then
      { rank := HandRankType.STRAIGHT, value := 5, cards := cards, kickers := [] }
    else if is_three_of_a_kind cards then
      { rank := HandRankType.THREE_OF_A_KIND, value := 4, cards := cards, kickers := [] }
    else if is_two_pair cards then
      { rank := HandRankType.TWO_PAIR, value := 3, cards := cards, kickers := [] }
    else if is_one_pair cards then
      { rank := HandRankType.ONE_PAIR, value := 2, cards := cards, kickers := [] }
    else
      { rank := HandRankType.HIGH_CARD, value := 1, cards := cards, kickers := [] }

/-- All k-element combinations of a list, in the order of Python's
`itertools.combinations` (lexicographic by position, order-preserving). -/
def combinations : Nat → List Card → List (List Card)
  | 0, _ => [[]]
  | _ + 1, [] => []
  | n + 1, x :: xs => (combinations n xs).map (fun c => x :: c) ++ combinations (n + 1) xs

/-- PokerEngine._get_best_hand: with fewer than 5 cards return a degenerate
HIGH_CARD of value 1; otherwise fold over all 5-card combinations keeping the
first hand of strictly greatest scalar value (`hand_rank.value > best_value`). -/
def get_best_hand (cards : List Card) : HandRank :=
  if cards.length < 5 then
    { rank := HandRankType.HIGH_CARD, value := 1,
      cards := if 5 ≤ cards.length then cards.take 5 else cards, kickers := [] }
  else
    let combos := combinations 5 cards
    let result := combos.foldl
      (fun (acc : Option HandRank × Nat) combo =>
        let hand_rank := evaluate_five_cards combo
        if acc.2 < hand_rank.value then (some hand_rank, hand_rank.value) else acc)
      (none, 0)
    match result.1 with
    | some best => best
    | none =>
        { rank := HandRankType.HIGH_CARD, value := 1, cards := cards.take 5, kickers := [] }

/-- PokerEngine.evaluate_hand: best 5-card hand of hole cards plus community cards. -/
def evaluate_hand (hole_cards community_cards : List Card) : HandRank :=
  get_best_hand (hole_cards ++ community_cards)

/-- GamePhase from app/models/game_models.py. -/
inductive GamePhase where
  | WAITING
  | PRE_FLOP
  | FLOP
  | TURN
  | RIVER
  | SHOWDOWN
  | FINISHED
deriving DecidableEq

/-- ActionType from app/models/game_models.py. -/
inductive ActionType where
  | FOLD
  | CHECK
  | CALL
  | RAISE
  | ALL_IN
deriving DecidableEq

/-- PlayerStatus from app/models/game_models.py. -/
inductive PlayerStatus where
  | ACTIVE
  | FOLDED
  | ALL_IN
  | SITTING_OUT
deriving DecidableEq

/-- Player from app/models/game_models.py (the fields the engine logic reads or
writes; timestamps, names and agent metadata are omitted as inert). -/
structure Player where
  id : String
  chips : Int
  status : PlayerStatus
  hole_cards : List Card
  current_bet : Int
  total_bet : Int
deriving DecidableEq

/-- GameState from app/models/game_models.py (the fields the engine logic reads
or writes; ids, timestamps and action history are omitted as inert). -/
structure GameState where
  phase : GamePhase
  players : List Player
  community_cards : List Card
  pot : Int
  current_bet : Int
  min_raise : Int
  active_player_index : Nat
  dealer_index : Nat
  small_blind : Int
  big_blind : Int
  winners : List String
  winning_hand : Option HandRank
deriving DecidableEq

/-- Sum of all players' chips plus the pot (the conserved quantity of the
chip-conservation invariant). -/
def chip_sum (game : GameState) : Int :=
  (game.players.map Player.chips).sum + game.pot

/-- PokerEngine._setup_blinds: debit small blind at the dealer index and big
blind at the next index, credit the pot, set table current_bet and min_raise
to the big-blind amount. -/
def setup_blinds (game : GameState) : GameState :=
  if game.players.length < 2 then game
  else
    match game.players[game.dealer_index]? with
    | none => game
    | some sb_player =>
      let sb_amount := min game.small_blind sb_player.chips
      let g1 := { game with
        players := game.players.set game.dealer_index
          { sb_player with current_bet := sb_amount, chips := sb_player.chips - sb_amount },
        pot := game.pot + sb_amount }
      let bb_index := (game.dealer_index + 1) % g1.players.length
      match g1.players[bb_index]? with
      | none => g1
      | some bb_player =>
        let bb_amount := min g1.big_blind bb_player.chips
        { g1 with
          players := g1.players.set bb_index
            { bb_player with current_bet := bb_amount, chips := bb_player.chips - bb_amount },
          pot := g1.pot + bb_amount,
          current_bet := bb_amount,
          min_raise := bb_amount }

/-- PokerEngine._determine_winner: with one non-folded ACTIVE player they win
alone; otherwise each active player's hand is evaluated and the winner group is
every player whose hand has the maximal scalar `value` (`max(hand.value ...)`
and `hand.value == best_hand_value` in the source). No chips move here. -/
def determine_winner_engine (game : GameState) : GameState :=
  let active_players := game.players.filter (fun p => p.status == PlayerStatus.ACTIVE)
  match active_players with
  | [p] => { game with winners := [p.id] }
  | _ =>
    let player_hands := active_players.map
      (fun p => (p, evaluate_hand p.hole_cards game.community_cards))
    let best_hand_value := (player_hands.map (fun ph => ph.2.value)).foldl max 0
    let winners := (player_hands.filter (fun ph => ph.2.value == best_hand_value)).map
      (fun ph => ph.1)
    { game with
      winners := winners.map Player.id,
      winning_hand := (player_hands.head?).map (fun ph => ph.2) }

/-- PokerEngine.is_game_complete: the betting round counts as complete when at
most one ACTIVE player remains, or all ACTIVE players' current bets are one
single amount equal to the table current bet. -/
def is_game_complete (game : GameState) : Bool :=
  let active_players := game.players.filter (fun p => p.status == PlayerStatus.ACTIVE)
  if active_players.length ≤ 1 then true
  else
    let bet_amounts := active_players.map Player.current_bet
    bet_amounts.eraseDups.length == 1 && bet_amounts.headD 0 == game.current_bet

/-- GameService._validate_action: reject folded players; for CALL require chips
to cover the call amount; for RAISE require an amount strictly above the table
bet, affordable, and at least `min_raise`; for ALL_IN require positive chips;
reject CHECK when behind the table bet. -/
def validate_action (player : Player) (game : GameState) (action_type : ActionType)
    (amount : Option Int) : Bool :=
  if player.status == PlayerStatus.FOLDED then false
  else
    let call_amount := game.current_bet - player.current_bet
    let chips_ok : Bool :=
      match action_type with
      | ActionType.CALL => decide (call_amount ≤ player.chips)
      | ActionType.RAISE =>
          match amount with
          | none => false
          | some amt =>
              decide (game.current_bet < amt) && decide (amt ≤ player.chips) &&
                decide (game.min_raise ≤ amt)
      | ActionType.ALL_IN => decide (0 < player.chips)
      | _ => true
    if chips_ok == false then false
    else if action_type == ActionType.CHECK && decide (player.current_bet < game.current_bet) then
      false
    else true

/-- GameService._apply_action on the player at index `i` (the source mutates the
aliased player object inside `game.players`). `none` embeds `return False` with
the state unchanged. The RAISE branch assigns `game.current_bet = amount` and
then `game.min_raise = amount - game.current_bet`, in that order, as the source
does; the ALL_IN branch likewise updates `current_bet` before `min_raise`. -/
def apply_action (game : GameState) (i : Nat) (action_type : ActionType)
    (amount : Option Int) : Option GameState :=
  match game.players[i]? with
  | none => none
  | some player =>
    match action_type with
    | ActionType.FOLD =>
        some { game with players := game.players.set i { player with status := PlayerStatus.FOLDED } }
    | ActionType.CHECK => some game
    | ActionType.CALL =>
        let call_amount := game.current_bet - player.current_bet
        if player.chips < call_amount then none
        else some { game with
          players := game.players.set i
            { player with chips := player.chips - call_amount, current_bet := game.current_bet },
          pot := game.pot + call_amount }
    | ActionType.RAISE =>
        match amount with
        | none => none
        | some amt =>
          if amt ≤ game.current_bet then none
          else
            let raise_amount := amt - player.current_bet
            if player.chips < raise_amount then none
            else
              let g1 := { game with
                players := game.players.set i
                  { player with chips := player.chips - raise_amount, current_bet := amt },
                pot := game.pot + raise_amount,
                current_bet := amt }
              some { g1 with min_raise := amt - g1.current_bet }
    | ActionType.ALL_IN =>
        let all_in_amount := player.chips
        let new_bet := player.current_bet + all_in_amount
        let g1 := { game with
          players := game.players.set i
            { player with chips := 0, current_bet := new_bet, status := PlayerStatus.ALL_IN },
          pot := game.pot + all_in_amount }
        if game.current_bet < new_bet then
          let g2 := { g1 with current_bet := new_bet }
          some { g2 with min_raise := new_bet - g2.current_bet }
        else some g1

/-- The while loop of GameService._move_to_next_player: scan from `j`, wrapping,
until reaching `idx` again, for a player with ACTIVE status; fuel bounds the
scan by the player count. -/
def next_active_from (players : List Player) (idx : Nat) : Nat → Nat → Option Nat
  | 0, _ => none
  | fuel + 1, j =>
      if j == idx then none
      else if (players[j]?.map Player.status) = some PlayerStatus.ACTIVE then some j
      else next_active_from players idx fuel ((j + 1) % players.length)

/-- GameService._move_to_next_player. -/
def move_to_next_player (game : GameState) : GameState :=
  let n := game.players.length
  match next_active_from game.players game.active_player_index n
      ((game.active_player_index + 1) % n) with
  | some j => { game with active_player_index := j }
  | none => game

/-- The tail of GameService._advance_game_phase: set `active_player_index` to
the first ACTIVE player (enumeration order). -/
def set_first_active (game : GameState) : GameState :=
  match game.players.findIdx? (fun p => p.status == PlayerStatus.ACTIVE) with
  | some i => { game with active_player_index := i }
  | none => game

/-- GameService._determine_winner: a single non-folded (ACTIVE or ALL_IN) player
receives the whole pot; otherwise the pot is floor-divided equally among all
non-folded players (`split_amount = game.pot // len(active_players)` in the
source, with no hand evaluation and no side pots); the pot is zeroed. -/
def determine_winner_service (game : GameState) : GameState :=
  let non_folded := game.players.filter
    (fun p => p.status == PlayerStatus.ACTIVE || p.status == PlayerStatus.ALL_IN)
  if non_folded.length == 1 then
    { game with
      players := game.players.map (fun p =>
        if p.status == PlayerStatus.ACTIVE || p.status == PlayerStatus.ALL_IN then
          { p with chips := p.chips + game.pot }
        else p),
      pot := 0 }
  else
    let split_amount := game.pot / (non_folded.length : Int)
    { game with
      players := game.players.map (fun p =>
        if p.status == PlayerStatus.ACTIVE || p.status == PlayerStatus.ALL_IN then
          { p with chips := p.chips + split_amount }
        else p),
      pot := 0 }

/-- GameService._advance_game_phase: reset all player bets, the table bet and
`min_raise`; step the phase; on RIVER resolve the showdown and return without
touching `active_player_index`; otherwise pick the first ACTIVE player. The
community-card deals are commented out in the source, so no cards are dealt. -/
def advance_game_phase_service (game0 : GameState) : GameState :=
  let game := { game0 with
    players := game0.players.map (fun (p : Player) => { p with current_bet := 0 }),
    current_bet := 0,
    min_raise := game0.big_blind }
  match game.phase with
  | GamePhase.PRE_FLOP => set_first_active { game with phase := GamePhase.FLOP }
  | GamePhase.FLOP => set_first_active { game with phase := GamePhase.TURN }
  | GamePhase.TURN => set_first_active { game with phase := GamePhase.RIVER }
  | GamePhase.RIVER => determine_winner_service { game with phase := GamePhase.SHOWDOWN }
  | _ => set_first_active game

/-- GameService._update_game_state: the round closes (phase advances) exactly
when every ACTIVE player's `current_bet` equals the table `current_bet` and
more than one ACTIVE player remains; otherwise the turn moves on. -/
def update_game_state (game : GameState) : GameState :=
  let active_players := game.players.filter (fun p => p.status == PlayerStatus.ACTIVE)
  let all_matched := active_players.all (fun p => p.current_bet == game.current_bet)
  if all_matched && decide (1 < active_players.length) then
    advance_game_phase_service game
  else
    move_to_next_player game

/-- GameService.make_player_action: look the player up by id, require it to be
the active player's turn, validate, apply, then update the game state. `none`
embeds every `return False` path. -/
def make_player_action_service (game : GameState) (player_id : String)
    (action_type : ActionType) (amount : Option Int) : Option GameState :=
  match game.players.find? (fun p => p.id == player_id) with
  | none => none
  | some player =>
    if (game.players[game.active_player_index]?.map Player.id) ≠ some player_id then none
    else if validate_action player game action_type amount == false then none
    else
      match apply_action game game.active_player_index action_type amount with
      | none => none
      | some g1 => some (update_game_state g1)

/-- GameStore.make_player_action: the store-layer duplicate of action
application. The player is looked up by id and must be ACTIVE; CHECK falls into
the default branch and is rejected; RAISE treats `amount` as an increment
(`total_needed = current_bet - player.current_bet + amount`,
`player.current_bet = current_bet + amount`, `min_raise = amount`); ALL_IN
never updates `min_raise`; afterwards `active_player_index` is advanced
blindly by one modulo the player count. -/
def make_player_action_store (game : GameState) (player_id : String)
    (action_type : ActionType) (amount : Option Int) : Option GameState :=
  match game.players.findIdx? (fun p => p.id == player_id) with
  | none => none
  | some i =>
    match game.players[i]? with
    | none => none
    | some player =>
      if player.status ≠ PlayerStatus.ACTIVE then none
      else
        let applied : Option GameState :=
          match action_type with
          | ActionType.FOLD =>
              some { game with
                players := game.players.set i { player with status := PlayerStatus.FOLDED } }
          | ActionType.CALL =>
              let call_amount := game.current_bet - player.current_bet
              if call_amount ≤ player.chips then
                some { game with
                  players := game.players.set i
                    { player with chips := player.chips - call_amount,
                                  current_bet := game.current_bet },
                  pot := game.pot + call_amount }
              else none
          | ActionType.RAISE =>
              match amount with
              | none => none
              | some amt =>
                if amt < game.min_raise then none
                else
                  let total_needed := game.current_bet - player.current_bet + amt
                  if total_needed ≤ player.chips then
                    let new_bet := game.current_bet + amt
                    some { game with
                      players := game.players.set i
                        { player with chips := player.chips - total_needed,
                                      current_bet := new_bet },
                      pot := game.pot + total_needed,
                      current_bet := new_bet,
                      min_raise := amt }
                  else none
          | ActionType.ALL_IN =>
              let all_in_amount := player.chips
              let new_bet := player.current_bet + all_in_amount
              let g1 := { game with
                players := game.players.set i
                  { player with chips := 0, current_bet := new_bet,
                                status := PlayerStatus.ALL_IN },
                pot := game.pot + all_in_amount }
              if game.current_bet < new_bet then some { g1 with current_bet := new_bet }
              else some g1
          | _ => none
        match applied with
        | none => none
        | some g1 =>
            some { g1 with
              active_player_index := (g1.active_player_index + 1) % g1.players.length }

/-- Card labels and values of PokerEngine._initialize_deck. -/
def deck_ranks : List (String × Nat) :=
  [("2", 2), ("3", 3), ("4", 4), ("5", 5), ("6", 6), ("7", 7), ("8", 8), ("9", 9),
   ("10", 10), ("J", 11), ("Q", 12), ("K", 13), ("A", 14)]

/-- PokerEngine._initialize_deck: the 52-card deck in construction order
(suits hearts, diamonds, clubs, spades; values ascending within a suit). -/
def fresh_deck : List Card :=
  (["hearts", "diamonds", "clubs", "spades"].map (fun s =>
    deck_ranks.map (fun rv => { suit := s, rank := rv.1, value := rv.2 : Card }))).flatten

/-- Pop `n` cards from the end of the deck (Python's `deck.pop()`), returning
the popped cards in pop order and the remaining deck. -/
def pop_n : List Card → Nat → List Card × List Card
  | deck, 0 => ([], deck)
  | deck, n + 1 =>
    match deck.getLast? with
    | none => ([], deck)
    | some c =>
      let rest := pop_n deck.dropLast n
      (c :: rest.1, rest.2)

/-- PokerEngine.deal_community_cards: when fewer than `count` cards remain the
deck is silently replaced by a reshuffled fresh 52-card deck (the random
shuffle is abstracted as the permutation `shuffle`), then `count` cards are
popped. There is no error outcome. -/
def deal_community_cards (shuffle : List Card → List Card) (deck : List Card)
    (count : Nat) : List Card × List Card :=
  let deck := if deck.length < count then shuffle fresh_deck else deck
  pop_n deck count

/-- Pop two hole cards per player (the loop of PokerEngine.deal_cards). -/
def deal_hole_loop : List Card → Nat → List (List Card) × List Card
  | deck, 0 => ([], deck)
  | deck, n + 1 =>
    let first := pop_n deck 2
    let rest := deal_hole_loop first.2 n
    (first.1 :: rest.1, rest.2)

/-- PokerEngine.deal_cards: when fewer than `2 * num_players` cards remain the
deck is silently replaced by a reshuffled fresh deck, then two cards are popped
per player. There is no error outcome. -/
def deal_cards (shuffle : List Card → List Card) (deck : List Card)
    (num_players : Nat) : List (List Card) × List Card :=
  let deck := if deck.length < num_players * 2 then shuffle fresh_deck else deck
  deal_hole_loop deck num_players

/-- PokerEngine.advance_game_phase: step the phase and deal community cards
(3 on PRE_FLOP, 1 on FLOP and TURN, extending the board); on RIVER resolve the
showdown via the engine winner grouping; then reset the table bet, `min_raise`
and every player's `current_bet`. Returns the new game state and the remaining
deck. -/
def advance_game_phase_engine (shuffle : List Card → List Card) (deck : List Card)
    (game : GameState) : GameState × List Card :=
  let stepped : GameState × List Card :=
    match game.phase with
    | GamePhase.PRE_FLOP =>
        let dealt := deal_community_cards shuffle deck 3
        ({ game with phase := GamePhase.FLOP, community_cards := dealt.1 }, dealt.2)
    | GamePhase.FLOP =>
        let dealt := deal_community_cards shuffle deck 1
        ({ game with phase := GamePhase.TURN,
                     community_cards := game.community_cards ++ dealt.1 }, dealt.2)
    | GamePhase.TURN =>
        let dealt := deal_community_cards shuffle deck 1
        ({ game with phase := GamePhase.RIVER,
                     community_cards := game.community_cards ++ dealt.1 }, dealt.2)
    | GamePhase.RIVER =>
        (determine_winner_engine { game with phase := GamePhase.SHOWDOWN }, deck)
    | _ => (game, deck)
  let g1 := stepped.1
  ({ g1 with
      current_bet := 0,
      min_raise := g1.big_blind,
      players := g1.players.map (fun (p : Player) => { p with current_bet := 0 }) },
   stepped.2)

/-! Concrete fixtures used by the claim theorems. -/

/-- Showdown fixture for C1: the board pairs nobody and allows no flush or
straight; player p1 holds a pair of Aces, player p2 a pair of Kings, so both
best hands have category ONE_PAIR (scalar value 2) but different tiebreak
card values. -/
def c1_game : GameState :=
  { phase := GamePhase.SHOWDOWN,
    players := [⟨"p1", 0, PlayerStatus.ACTIVE, [⟨"spades", "A", 14⟩, ⟨"hearts", "A", 14⟩], 0, 0⟩,
                ⟨"p2", 0, PlayerStatus.ACTIVE, [⟨"spades", "K", 13⟩, ⟨"hearts", "K", 13⟩], 0, 0⟩],
    community_cards := [⟨"diamonds", "2", 2⟩, ⟨"clubs", "4", 4⟩, ⟨"diamonds", "6", 6⟩,
                        ⟨"clubs", "8", 8⟩, ⟨"diamonds", "J", 11⟩],
    pot := 0, current_bet := 0, min_raise := 0,
    active_player_index := 0, dealer_index := 0, small_blind := 10, big_blind := 20,
    winners := [], winning_hand := none }

/-- Showdown fixture for C2: three non-folded players with zero chips and a pot
of 100, which is not divisible by 3. -/
def c2_game : GameState :=
  { phase := GamePhase.SHOWDOWN,
    players := [⟨"a", 0, PlayerStatus.ALL_IN, [], 0, 0⟩,
                ⟨"b", 0, PlayerStatus.ALL_IN, [], 0, 0⟩,
                ⟨"c", 0, PlayerStatus.ACTIVE, [], 0, 0⟩],
    community_cards := [], pot := 100, current_bet := 0, min_raise := 0,
    active_player_index := 0, dealer_index := 0, small_blind := 10, big_blind := 20,
    winners := [], winning_hand := none }

/-- Showdown fixture for C3, the spec's side-pot example: player A all-in for a
total contribution of 50, player B all-in for 100, player C (still active) in
for 150; the pot is 300. -/
def c3_game : GameState :=
  { phase := GamePhase.SHOWDOWN,
    players := [⟨"A", 0, PlayerStatus.ALL_IN, [], 0, 50⟩,
                ⟨"B", 0, PlayerStatus.ALL_IN, [], 0, 100⟩,
                ⟨"C", 0, PlayerStatus.ACTIVE, [], 0, 150⟩],
    community_cards := [], pot := 300, current_bet := 0, min_raise := 0,
    active_player_index := 0, dealer_index := 0, small_blind := 10, big_blind := 20,
    winners := [], winning_hand := none }

/-- Pre-flop heads-up fixture for C4: blinds already posted (p1 small blind 10,
p2 big blind 20, pot 30), p1 to act. A fold by p1 leaves exactly one non-folded
player. -/
def c4_game : GameState :=
  { phase := GamePhase.PRE_FLOP,
    players := [⟨"p1", 990, PlayerStatus.ACTIVE, [], 10, 10⟩,
                ⟨"p2", 980, PlayerStatus.ACTIVE, [], 20, 20⟩],
    community_cards := [], pot := 30, current_bet := 20, min_raise := 20,
    active_player_index := 0, dealer_index := 0, small_blind := 10, big_blind := 20,
    winners := [], winning_hand := none }

/-- Fresh pre-flop heads-up fixture for C5, before blinds: p1 is the dealer and
posts the small blind, p2 posts the big blind. -/
def c5_base : GameState :=
  { phase := GamePhase.PRE_FLOP,
    players := [⟨"p1", 1000, PlayerStatus.ACTIVE, [], 0, 0⟩,
                ⟨"p2", 1000, PlayerStatus.ACTIVE, [], 0, 0⟩],
    community_cards := [], pot := 0, current_bet := 0, min_raise := 0,
    active_player_index := 0, dealer_index := 0, small_blind := 10, big_blind := 20,
    winners := [], winning_hand := none }

/-- Ace-low wheel, all hearts, for C6. -/
def c6_wheel_suited : List Card :=
  [⟨"hearts", "A", 14⟩, ⟨"hearts", "2", 2⟩, ⟨"hearts", "3", 3⟩,
   ⟨"hearts", "4", 4⟩, ⟨"hearts", "5", 5⟩]

/-- Ace-low wheel with mixed suits, for C6. -/
def c6_wheel_offsuit : List Card :=
  [⟨"hearts", "A", 14⟩, ⟨"spades", "2", 2⟩, ⟨"hearts", "3", 3⟩,
   ⟨"clubs", "4", 4⟩, ⟨"hearts", "5", 5⟩]

/-- Six-high straight with mixed suits, for C6. -/
def c6_straight_six : List Card :=
  [⟨"hearts", "2", 2⟩, ⟨"spades", "3", 3⟩, ⟨"hearts", "4", 4⟩,
   ⟨"clubs", "5", 5⟩, ⟨"hearts", "6", 6⟩]

/-- Pre-flop fixture for C7: the table bet is 20 and `min_raise` is 20, so per
the spec a raise must be to at least 40; p1 (bet 0, chips 1000) is to act. -/
def c7_game : GameState :=
  { phase := GamePhase.PRE_FLOP,
    players := [⟨"p1", 1000, PlayerStatus.ACTIVE, [], 0, 0⟩,
                ⟨"p2", 1000, PlayerStatus.ACTIVE, [], 20, 20⟩],
    community_cards := [], pot := 20, current_bet := 20, min_raise := 20,
    active_player_index := 0, dealer_index := 0, small_blind := 10, big_blind := 20,
    winners := [], winning_hand := none }

/-- Fresh pre-flop heads-up fixture for C8, before blinds. -/
def c8_base : GameState :=
  { phase := GamePhase.PRE_FLOP,
    players := [⟨"p1", 500, PlayerStatus.ACTIVE, [], 0, 0⟩,
                ⟨"p2", 500, PlayerStatus.ACTIVE, [], 0, 0⟩],
    community_cards := [], pot := 0, current_bet := 0, min_raise := 0,
    active_player_index := 0, dealer_index := 0, small_blind := 10, big_blind := 20,
    winners := [], winning_hand := none }

/-- Mid-hand deck remainder for C9: a single card is left after the hand's
deals. -/
def c9_low_deck : List Card := [⟨"hearts", "2", 2⟩]

/-! Claim theorems. -/

/-- C1: the claim states that the winner set at showdown is determined by
comparing full (category, tiebreak vector) pairs, and that the scalar category
value is never the sole comparator. In the code both the best-hand selection
and the winner grouping compare only the scalar `value`: on a board where p1's
best hand is a pair of Aces and p2's a pair of Kings — the same category with
different tiebreak vectors — `PokerEngine._determine_winner` puts both players
in the winner set, so the greater tiebreak vector does not win and the scalar
value is the sole comparator. This refutes the claim on the code. -/
theorem c1_showdown_winner_grouping_ignores_tiebreaks :
    (evaluate_hand [⟨"spades", "A", 14⟩, ⟨"hearts", "A", 14⟩] c1_game.community_cards).rank
        = HandRankType.ONE_PAIR ∧
    (evaluate_hand [⟨"spades", "K", 13⟩, ⟨"hearts", "K", 13⟩] c1_game.community_cards).rank
        = HandRankType.ONE_PAIR ∧
    (determine_winner_engine c1_game).winners = ["p1", "p2"] := by
  refine ⟨by decide, by decide, by decide⟩

/-- C2: the claim states that the sum of all chips plus the pot is invariant
across every pot-distribution step at hand end. In
`GameService._determine_winner` the pot is floor-divided among the non-folded
players and then zeroed, so with a pot of 100 and three non-folded players one
chip is destroyed: the conserved quantity drops from 100 to 99. This refutes
the claim on the code at the pot-distribution step. -/
theorem c2_pot_distribution_breaks_chip_conservation :
    chip_sum c2_game = 100 ∧ chip_sum (determine_winner_service c2_game) = 99 := by
  refine ⟨by decide, by decide⟩

/-- C3: the claim states that with unequal all-in contributions the pot is
partitioned into contribution tiers with per-tier eligibility, and is never
simply split equally among all active players. In the code, with contributions
50/100/150 and a pot of 300, `GameService._determine_winner` credits every
non-folded player exactly 100 — an equal split that ignores the contribution
tiers entirely. This refutes the claim on the code. -/
theorem c3_showdown_splits_pot_equally_ignoring_contribution_tiers :
    (c3_game.players.map Player.total_bet) = [50, 100, 150] ∧
    ((determine_winner_service c3_game).players.map Player.chips) = [100, 100, 100] ∧
    (determine_winner_service c3_game).pot = 0 := by
  refine ⟨by decide, by decide, by decide⟩

/-- C4: the claim states that an action leaving exactly one non-folded player
ends the hand immediately, credits that player the whole pot and moves the
phase to FINISHED. In the code, after p1 folds heads-up,
`GameService._update_game_state` merely moves the turn to the next player: the
phase stays PRE_FLOP, the pot of 30 stays undistributed and p2's chips are
unchanged. This refutes the claim on the code. -/
theorem c4_fold_to_single_player_does_not_end_hand :
    (make_player_action_service c4_game "p1" ActionType.FOLD none).map
        (fun g => (g.phase, g.pot, g.players.map Player.chips, g.winners))
      = some (GamePhase.PRE_FLOP, 30, [990, 980], []) := by decide

/-- C5: the claim states that a betting round never closes unless every ACTIVE
player has had an opportunity to act since the last raise — in particular it
must not close merely because all ACTIVE bets happen to be equal. In the code,
after the blinds are posted heads-up (p1 small blind 10, p2 big blind 20), a
single call by p1 equalises the bets and `GameService._update_game_state`
immediately advances the phase to FLOP; `PokerEngine.is_game_complete` also
reports the round complete. The big blind p2 never acted, so the round closed
merely because the bets were equal. This refutes the claim on the code. -/
theorem c5_round_closes_without_big_blind_acting :
    ((setup_blinds c5_base).players.map Player.current_bet = [10, 20]) ∧
    (apply_action (setup_blinds c5_base) 0 ActionType.CALL none).map is_game_complete
        = some true ∧
    (make_player_action_service (setup_blinds c5_base) "p1" ActionType.CALL none).map
        GameState.phase = some GamePhase.FLOP := by
  refine ⟨by decide, by decide, by decide⟩

/-- C6: the claim states that the Ace-low wheel {14,2,3,4,5} is a straight (a
straight flush when suited, never a royal flush) with effective high card 5,
strictly below a 6-high straight in the evaluator's ordering. In the code a
suited wheel is classified ROYAL_FLUSH (`_is_royal_flush` tests the first card
of the descending sort, which is the Ace), and an offsuit wheel, though
classified STRAIGHT, receives the same scalar value 5 as the 6-high straight,
so it does not compare strictly below it in the evaluator's ordering. This
refutes the claim on the code. -/
theorem c6_ace_low_wheel_misranked :
    (evaluate_five_cards c6_wheel_suited).rank = HandRankType.ROYAL_FLUSH ∧
    (evaluate_five_cards c6_wheel_offsuit).rank = HandRankType.STRAIGHT ∧
    (evaluate_five_cards c6_wheel_offsuit).value = (evaluate_five_cards c6_straight_six).value := by
  refine ⟨by decide, by decide, by decide⟩

/-- C7: the claim states that a raise to amount A succeeds only when
A ≥ table.current_bet + min_raise, and on success sets min_raise to A minus the
previous table bet. In the code, with table bet 20 and min_raise 20: the
service layer accepts a raise to 25 (< 40); after a raise to 40 it sets
`min_raise` to 0, because it assigns `game.current_bet = amount` before
computing `amount - game.current_bet`; and the store layer treats the amount
as an increment, moving the table bet to 60 and the pot by 60 for a "raise to
40". This refutes the claim on the code. -/
theorem c7_raise_validation_and_min_raise_diverge :
    (make_player_action_service c7_game "p1" ActionType.RAISE (some 25)).isSome = true ∧
    (make_player_action_service c7_game "p1" ActionType.RAISE (some 40)).map
        GameState.min_raise = some 0 ∧
    (make_player_action_store c7_game "p1" ActionType.RAISE (some 40)).map
        (fun g => (g.current_bet, g.pot)) = some (60, 80) := by
  refine ⟨by decide, by decide, by decide⟩

/-- C8: the claim states that after every phase advance the bets are reset and
the community cards grow by 3/1/1, giving board length 3 at FLOP. In the code
the action path's phase advance (`GameService._advance_game_phase`) resets the
bets but deals no cards — the deal statements are commented out — so after the
pre-flop round closes the phase is FLOP with 0 community cards. The dead
engine-side `PokerEngine.advance_game_phase` would deal 3. This refutes the
claim on the code path that actions actually take. -/
theorem c8_phase_advance_deals_no_community_cards :
    (make_player_action_service (setup_blinds c8_base) "p1" ActionType.CALL none).map
        (fun g => (g.phase, g.community_cards.length, g.current_bet, g.min_raise,
                   g.players.map Player.current_bet))
      = some (GamePhase.FLOP, 0, 0, 20, [0, 0]) ∧
    ((advance_game_phase_engine id fresh_deck (setup_blinds c8_base)).1.community_cards.length
      = 3) := by
  refine ⟨by decide, by decide⟩

/-- C9: the claim states that a mid-hand deal finding too few cards in the deck
surfaces a fatal consistency error and never silently reinitializes or
reshuffles, which could reuse an already-dealt card. In the code
`PokerEngine.deal_community_cards` has no error outcome at all: with one card
left it silently rebuilds the full 52-card deck, reshuffles (here the identity
permutation) and deals three cards — cards such as the Ace of spades that were
not in the remaining deck, i.e. cards already dealt this hand. This refutes
the claim on the code. -/
theorem c9_deck_exhaustion_reshuffles_silently :
    (deal_community_cards id c9_low_deck 3).1
        = [⟨"spades", "A", 14⟩, ⟨"spades", "K", 13⟩, ⟨"spades", "Q", 12⟩] ∧
    (⟨"spades", "A", 14⟩ : Card) ∉ c9_low_deck := by
  refine ⟨by decide, by decide⟩

/-- C10: for every input totalling fewer than 5 cards, `evaluate_hand` returns
the defined degenerate HandRank — category HIGH_CARD, value 1, the supplied
cards, empty kickers — rather than failing, so the evaluator is total over
card lists of any length. -/
theorem c10_short_input_returns_high_card (hole_cards community_cards : List Card)
    (h : (hole_cards ++ community_cards).length < 5) :
    evaluate_hand hole_cards community_cards =
      { rank := HandRankType.HIGH_CARD, value := 1,
        cards := hole_cards ++ community_cards, kickers := [] } := by
  unfold evaluate_hand get_best_hand
  rw [if_pos h, if_neg (Nat.not_le.mpr h)]

/-- Witness for C10 at a concrete input: two hole cards and one community card
(3 < 5 cards in total). -/
theorem c10_short_input_returns_high_card_witness :
    (([⟨"spades", "A", 14⟩, ⟨"hearts", "A", 14⟩] ++ [⟨"spades", "K", 13⟩]) : List Card).length < 5 ∧
    evaluate_hand [⟨"spades", "A", 14⟩, ⟨"hearts", "A", 14⟩] [⟨"spades", "K", 13⟩] =
      { rank := HandRankType.HIGH_CARD, value := 1,
        cards := [⟨"spades", "A", 14⟩, ⟨"hearts", "A", 14⟩] ++ [⟨"spades", "K", 13⟩],
        kickers := [] } :=
  ⟨by decide,
   c10_short_input_returns_high_card
     [⟨"spades", "A", 14⟩, ⟨"hearts", "A", 14⟩] [⟨"spades", "K", 13⟩] (by decide)⟩

end Pocketaces
